import Mathlib

/-!
Shallow embedding of the Cival dashboard's agent-tooling core:

* `MCP` — the `MCPIntegrationService` tool-execution gateway
  (tool registry, per-agent permissions, call log, sessions,
  `callTool`, `activateForAgent`, `getAvailableTools`,
  `logCall`, `updateToolUsage`).
* `Loop` — the `AgentDecisionLoop` scheduler
  (`validateDecision`, `handleDecisionError`, `stopAgent`,
  `startAgent`, `startAllAgents`).

Maps (`Map<string, T>`) are embedded as association lists with
JavaScript `Map` semantics: `set` replaces in place when the key is
present (preserving insertion order) and appends otherwise.
Wall-clock reads (`Date.now()`) become explicit `Nat` parameters, and
elapsed durations are passed in explicitly.  Numbers are `Rat`
(budget figures such as `maxRiskPerTrade = 0.05` are exact rationals).
-/

namespace MCP

/-- JS `Map.prototype.get` on an association list. -/
def mapGet {α : Type} (m : List (String × α)) (k : String) : Option α :=
  (m.find? (fun kv => decide (kv.1 = k))).map (·.2)

/-- JS `Map.prototype.set` on an association list: replace in place when
the key is present, append otherwise. -/
def mapSet {α : Type} (m : List (String × α)) (k : String) (v : α) : List (String × α) :=
  if (m.find? (fun kv => decide (kv.1 = k))).isSome then
    m.map (fun kv => if kv.1 = k then (k, v) else kv)
  else
    m ++ [(k, v)]

/-- The `type` field of an `MCPParameter`
(`'string' | 'number' | 'boolean' | 'object' | 'array'`). -/
inductive PType where
  | str
  | num
  | bool
  | obj
  | arr
deriving DecidableEq

/-- A parameter value as passed in `parameters: Record<string, any>`. -/
inductive JValue where
  | vStr : String → JValue
  | vNum : Rat → JValue
  | vBool : Bool → JValue
  | vObj : JValue
  | vArr : JValue
deriving DecidableEq

/-- The `parameters: Record<string, any>` argument of a tool call. -/
abbrev Params := List (String × JValue)

/-- The `MCPParameter`: one entry of a tool's declared parameter schema. -/
structure MCPParameter where
  name : String
  ptype : PType
  description : String
  required : Bool
  vmin : Option Rat
  vmax : Option Rat
  venum : Option (List String)
deriving DecidableEq

/-- The `MCPTool.usage`: rolling usage statistics. -/
structure MCPToolUsage where
  totalCalls : Nat
  lastUsed : Nat
  successRate : Rat
  avgResponseTime : Rat
deriving DecidableEq

/-- The `MCPTool`: a registry entry (category kept as its literal string). -/
structure MCPTool where
  id : String
  name : String
  description : String
  category : String
  version : String
  permissions : List String
  parameters : List MCPParameter
  enabled : Bool
  usage : MCPToolUsage
deriving DecidableEq

/-- The `MCPAgentPermissions.restrictions`. -/
structure MCPRestrictions where
  maxCallsPerMinute : Nat
  maxCallsPerDay : Nat
  requireApproval : List String
  blockedTools : List String
deriving DecidableEq

/-- The `MCPAgentPermissions.audit`. -/
structure MCPAudit where
  enabled : Bool
  logLevel : String
  retentionDays : Nat
deriving DecidableEq

/-- The `MCPAgentPermissions`: the per-agent permission set. -/
structure MCPAgentPermissions where
  agentId : String
  allowedTools : List String
  allowedCategories : List String
  restrictions : MCPRestrictions
  audit : MCPAudit
deriving DecidableEq

/-- The status field of an `MCPSession`. -/
inductive SessionStatus where
  | active
  | completed
  | error
  | timeout
deriving DecidableEq

/-- The `MCPSession`: one execution context for an agent. -/
structure MCPSession where
  id : String
  agentId : String
  startTime : Nat
  endTime : Option Nat
  totalCalls : Nat
  successfulCalls : Nat
  failedCalls : Nat
  tools : List String
  status : SessionStatus
deriving DecidableEq

/-- The model of a tool implementation's response (the concrete
payloads come from external services, so they are represented by which
implementation produced them and with which inputs). -/
inductive ToolResponse where
  | orderPlaced : String → Params → ToolResponse
  | sentiment : Params → ToolResponse
  | todoCreated : String → Params → ToolResponse
deriving DecidableEq

/-- The `MCPCallLog`: one audit-log record (its `context` object is
flattened into `sessionId`/`requestId`). -/
structure MCPCallLog where
  id : String
  agentId : String
  toolId : String
  parameters : Params
  response : Option ToolResponse
  success : Bool
  error : Option String
  timestamp : Nat
  duration : Nat
  sessionId : String
  requestId : String
deriving DecidableEq

/-- The mutable state of `MCPIntegrationService`
(`tools`, `agentPermissions`, `callLogs`, `sessions`, `rateLimits`). -/
structure MCPState where
  tools : List (String × MCPTool)
  agentPermissions : List (String × MCPAgentPermissions)
  callLogs : List MCPCallLog
  sessions : List (String × MCPSession)
  rateLimits : List (String × (Nat × Nat))
deriving DecidableEq

/-- A dispatch to a tool's concrete implementation (the observable
side effect that governance is supposed to gate). -/
structure DispatchEvent where
  toolId : String
  params : Params
deriving DecidableEq

/-- The `getActiveSessionId`: first session of the agent with status
`active`, else `'no-session'`. -/
def getActiveSessionId (st : MCPState) (agentId : String) : String :=
  let sessions := st.sessions.filter (fun kv =>
    kv.2.agentId == agentId && kv.2.status == SessionStatus.active)
  match sessions with
  | [] => "no-session"
  | s :: _ => s.2.id

/-- The `logCall`: push the record, then keep only the last 1000 entries. -/
def logCall (logs : List MCPCallLog) (rec : MCPCallLog) : List MCPCallLog :=
  let logs' := logs ++ [rec]
  if logs'.length > 1000 then logs'.drop (logs'.length - 1000) else logs'

/-- The `updateToolUsage`: `totalCalls++`, stamp `lastUsed`, then recompute
`successRate` from `totalCalls * successRate + (success ? 1 : 0)` and
`avgResponseTime` from `avgResponseTime * (totalCalls - 1) + duration`,
each divided by the post-increment `totalCalls` (exactly as the
source writes it, including its use of the post-increment count in the
`successRate` weighted sum). -/
def updateToolUsage (tools : List (String × MCPTool)) (toolId : String)
    (success : Bool) (duration : Nat) (now : Nat) : List (String × MCPTool) :=
  match mapGet tools toolId with
  | none => tools
  | some tool =>
    let n : Nat := tool.usage.totalCalls + 1
    let successCount : Rat := (n : Rat) * tool.usage.successRate + (if success then 1 else 0)
    let newRate : Rat := successCount / (n : Rat)
    let totalTime : Rat := tool.usage.avgResponseTime * ((n : Rat) - 1) + (duration : Rat)
    let newAvg : Rat := totalTime / (n : Rat)
    mapSet tools toolId
      { tool with usage :=
        { totalCalls := n, lastUsed := now, successRate := newRate, avgResponseTime := newAvg } }

/-- The `executeTool`: the dispatch switch.  The three registered ids reach
their implementation (recorded as a `DispatchEvent`; the external
backends are modelled as succeeding); any other id throws
`Tool not implemented`. -/
def executeTool (tool : MCPTool) (params : Params) (agentId : String) :
    List DispatchEvent × Except String ToolResponse :=
  if tool.id == "trading.place_order" then
    ([⟨tool.id, params⟩], Except.ok (ToolResponse.orderPlaced agentId params))
  else if tool.id == "analysis.market_sentiment" then
    ([⟨tool.id, params⟩], Except.ok (ToolResponse.sentiment params))
  else if tool.id == "system.create_todo" then
    ([⟨tool.id, params⟩], Except.ok (ToolResponse.todoCreated agentId params))
  else
    ([], Except.error ("Tool not implemented: " ++ tool.id))

/-- The result of one `callTool`: the new service state, the returned
value or thrown error, and the dispatches that occurred. -/
structure CallResult where
  state : MCPState
  outcome : Except String ToolResponse
  dispatches : List DispatchEvent

/-- The catch branch of `callTool`: log a failed call record and update
the tool's usage stats, then rethrow. -/
def callToolFail (st : MCPState) (agentId toolId : String) (params : Params)
    (now dur : Nat) (msg : String) (ds : List DispatchEvent) : CallResult :=
  let callId := "call_" ++ toString now
  let record : MCPCallLog :=
    { id := callId, agentId := agentId, toolId := toolId, parameters := params,
      response := none, success := false, error := some msg,
      timestamp := now, duration := dur,
      sessionId := getActiveSessionId st agentId, requestId := callId }
  { state := { st with
      callLogs := logCall st.callLogs record,
      tools := updateToolUsage st.tools toolId false dur (now + dur) },
    outcome := Except.error msg,
    dispatches := ds }

/-- The `callTool(agentId, toolId, parameters, context)`: check that the
agent is registered and the tool exists and is enabled, then dispatch
via `executeTool`; in every branch log exactly one call record and
update the tool's usage stats.  `now` is `Date.now()` at entry and
`dur` the observed elapsed time. -/
def callTool (st : MCPState) (agentId toolId : String) (params : Params)
    (now dur : Nat) : CallResult :=
  match mapGet st.agentPermissions agentId with
  | none => callToolFail st agentId toolId params now dur "Agent not registered for MCP" []
  | some _permissions =>
    match mapGet st.tools toolId with
    | none =>
      callToolFail st agentId toolId params now dur
        ("Tool not found or disabled: " ++ toolId) []
    | some tool =>
      if tool.enabled then
        match executeTool tool params agentId with
        | (ds, Except.ok response) =>
          let callId := "call_" ++ toString now
          let record : MCPCallLog :=
            { id := callId, agentId := agentId, toolId := toolId, parameters := params,
              response := some response, success := true, error := none,
              timestamp := now, duration := dur,
              sessionId := getActiveSessionId st agentId, requestId := callId }
          { state := { st with
              callLogs := logCall st.callLogs record,
              tools := updateToolUsage st.tools toolId true dur (now + dur) },
            outcome := Except.ok response,
            dispatches := ds }
        | (ds, Except.error msg) =>
          callToolFail st agentId toolId params now dur msg ds
      else
        callToolFail st agentId toolId params now dur
          ("Tool not found or disabled: " ++ toolId) []

/-- The `createSession`: a fresh session, unconditionally `active`. -/
def createSession (agentId : String) (now : Nat) : MCPSession :=
  { id := "session_" ++ agentId ++ "_" ++ toString now,
    agentId := agentId, startTime := now, endTime := none,
    totalCalls := 0, successfulCalls := 0, failedCalls := 0,
    tools := [], status := SessionStatus.active }

/-- The `basePermissions` list of `createAgentPermissions`. -/
def basePermissions : List String :=
  ["trading.read", "analysis.read", "system.write", "data.write"]

/-- The `getToolsForPermissions`: ids of the registered tools whose
`permissions` intersect the given capability list. -/
def getToolsForPermissions (tools : List (String × MCPTool)) (perms : List String) :
    List String :=
  (((tools.map (·.2)).filter
    (fun tool => tool.permissions.any (fun p => perms.contains p))).map (·.id))

/-- The `createAgentPermissions`: the permission set derived for an agent
at activation time. -/
def createAgentPermissions (agentId : String) (tools : List (String × MCPTool)) :
    MCPAgentPermissions :=
  { agentId := agentId,
    allowedTools := getToolsForPermissions tools basePermissions,
    allowedCategories := ["trading", "analysis", "system", "data"],
    restrictions :=
      { maxCallsPerMinute := 60, maxCallsPerDay := 5000,
        requireApproval := ["trading.place_order"], blockedTools := [] },
    audit := { enabled := true, logLevel := "detailed", retentionDays := 30 } }

/-- Result of `activateForAgent`. -/
structure ActivationResult where
  state : MCPState
  success : Bool

/-- The `activateForAgent`: look the agent up in the (external) persistence
service, then install a permission set and create a session.  Note the
source creates the session unconditionally. -/
def activateForAgent (knownAgents : List String) (st : MCPState)
    (agentId : String) (now : Nat) : ActivationResult :=
  if knownAgents.contains agentId then
    let permissions := createAgentPermissions agentId st.tools
    let st1 := { st with agentPermissions := mapSet st.agentPermissions agentId permissions }
    let session := createSession agentId now
    let st2 := { st1 with sessions := mapSet st1.sessions session.id session }
    { state := st2, success := true }
  else
    { state := st, success := false }

/-- Number of the agent's sessions currently in status `active`. -/
def countActiveSessions (st : MCPState) (agentId : String) : Nat :=
  (st.sessions.filter (fun kv =>
    kv.2.agentId == agentId && kv.2.status == SessionStatus.active)).length

/-- Does a `JValue` have the declared parameter type? -/
def typeMatches : PType → JValue → Bool
  | PType.str, JValue.vStr _ => true
  | PType.num, JValue.vNum _ => true
  | PType.bool, JValue.vBool _ => true
  | PType.obj, JValue.vObj => true
  | PType.arr, JValue.vArr => true
  | _, _ => false

/-- Does a value satisfy one schema entry's `validation` block? -/
def validationOk (p : MCPParameter) (v : JValue) : Bool :=
  (match v, p.vmin with
   | JValue.vNum q, some lo => decide (lo ≤ q)
   | _, _ => true) &&
  (match v, p.vmax with
   | JValue.vNum q, some hi => decide (q ≤ hi)
   | _, _ => true) &&
  (match v, p.venum with
   | JValue.vStr s, some xs => xs.contains s
   | _, _ => true)

/-- Modelled from the spec: "Parameter validation against the tool's
schema (type, required fields, numeric ranges, enum membership)".  The
source's `callTool` contains no such check, so this predicate exists
only to state which parameter maps violate a tool's declared schema. -/
def paramsConformSchema (tool : MCPTool) (params : Params) : Bool :=
  tool.parameters.all (fun p =>
    match mapGet params p.name with
    | none => !p.required
    | some v => typeMatches p.ptype v && validationOk p v)

/-- The `getAvailableTools`: the only place the allow-list / category /
blocked-list filtering appears. -/
def getAvailableTools (st : MCPState) (agentId : String) : List MCPTool :=
  match mapGet st.agentPermissions agentId with
  | none => []
  | some permissions =>
    (st.tools.map (·.2)).filter (fun tool =>
      tool.enabled &&
      (permissions.allowedTools.contains tool.id ||
       permissions.allowedCategories.contains tool.category) &&
      !(permissions.restrictions.blockedTools.contains tool.id))

/-- Zeroed usage stats, as set by `initializeDefaultTools`. -/
def zeroUsage : MCPToolUsage :=
  { totalCalls := 0, lastUsed := 0, successRate := 0, avgResponseTime := 0 }

/-- The `trading.place_order` registry entry of `initializeDefaultTools`. -/
def placeOrderTool : MCPTool :=
  { id := "trading.place_order", name := "Place Trading Order",
    description := "Execute a trading order through the paper trading engine",
    category := "trading", version := "1.0.0",
    permissions := ["trading.execute"],
    parameters :=
      [ { name := "symbol", ptype := PType.str, description := "Trading pair symbol",
          required := true, vmin := none, vmax := none, venum := none },
        { name := "side", ptype := PType.str, description := "Order side (buy/sell)",
          required := true, vmin := none, vmax := none, venum := some ["buy", "sell"] },
        { name := "amount", ptype := PType.num, description := "Order amount",
          required := true, vmin := some 0, vmax := none, venum := none },
        { name := "type", ptype := PType.str, description := "Order type",
          required := false, vmin := none, vmax := none, venum := some ["market", "limit"] },
        { name := "price", ptype := PType.num, description := "Limit price (for limit orders)",
          required := false, vmin := none, vmax := none, venum := none } ],
    enabled := true, usage := zeroUsage }

/-- The `analysis.market_sentiment` registry entry of `initializeDefaultTools`. -/
def marketSentimentTool : MCPTool :=
  { id := "analysis.market_sentiment", name := "Analyze Market Sentiment",
    description := "Get market sentiment analysis using AI",
    category := "analysis", version := "1.0.0",
    permissions := ["analysis.read"],
    parameters :=
      [ { name := "symbol", ptype := PType.str, description := "Asset symbol to analyze",
          required := true, vmin := none, vmax := none, venum := none },
        { name := "timeframe", ptype := PType.str, description := "Analysis timeframe",
          required := false, vmin := none, vmax := none,
          venum := some ["1h", "4h", "1d", "1w"] } ],
    enabled := true, usage := zeroUsage }

/-- The `system.create_todo` registry entry of `initializeDefaultTools`. -/
def createTodoTool : MCPTool :=
  { id := "system.create_todo", name := "Create Todo Item",
    description := "Create a new todo item for the agent",
    category := "system", version := "1.0.0",
    permissions := ["system.write"],
    parameters :=
      [ { name := "title", ptype := PType.str, description := "Todo title",
          required := true, vmin := none, vmax := none, venum := none },
        { name := "description", ptype := PType.str, description := "Todo description",
          required := false, vmin := none, vmax := none, venum := none },
        { name := "priority", ptype := PType.str, description := "Todo priority",
          required := false, vmin := none, vmax := none,
          venum := some ["low", "medium", "high"] } ],
    enabled := true, usage := zeroUsage }

/-- The `initializeDefaultTools`: the tool registry after startup. -/
def defaultTools : List (String × MCPTool) :=
  [ ("trading.place_order", placeOrderTool),
    ("analysis.market_sentiment", marketSentimentTool),
    ("system.create_todo", createTodoTool) ]

end MCP

namespace Loop

/-- Agent lifecycle status (`'active' | 'paused' | 'stopped' | 'error'`). -/
inductive AgentStatus where
  | active
  | paused
  | stopped
  | error
deriving DecidableEq

/-- The `Agent.config`. -/
structure AgentConfig where
  decisionInterval : Nat
  maxRiskPerTrade : Rat
  symbols : List String
deriving DecidableEq

/-- The `Agent.performance`. -/
structure AgentPerformance where
  totalPnL : Rat
  winRate : Rat
  trades : Nat
  successfulDecisions : Nat
  totalDecisions : Nat
deriving DecidableEq

/-- The `Agent` as held in `agentStates` (the opaque `memory`/`strategy`
blobs are not consulted by the embedded operations and are omitted). -/
structure Agent where
  id : String
  name : String
  agentType : String
  status : AgentStatus
  config : AgentConfig
  performance : AgentPerformance
deriving DecidableEq

/-- One position of a `Portfolio`. -/
structure Position where
  symbol : String
  quantity : Rat
  avgPrice : Rat
  currentPrice : Rat
  unrealizedPnL : Rat
deriving DecidableEq

/-- The `Portfolio` as consumed by `validateDecision`. -/
structure Portfolio where
  totalValue : Rat
  cash : Rat
  positions : List Position
  pnl : Rat
deriving DecidableEq

/-- Modelled from the spec: the external Decision Provider returns a
structured decision; only the fields `validateDecision` reads are kept,
each optional because the provider may omit them. -/
structure AIDecision where
  action : Option String
  reasoning : Option String
  symbol : Option String
  quantity : Option Rat
  price : Option Rat
  confidence : Option Rat
deriving DecidableEq

/-- JS truthiness of an optional string (`undefined` and `''` are falsy). -/
def truthyStr : Option String → Bool
  | none => false
  | some s => s != ""

/-- JS truthiness of an optional number (`undefined` and `0` are falsy). -/
def truthyNum : Option Rat → Bool
  | none => false
  | some q => q != 0

/-- JS `x || 0` on an optional number. -/
def numOrZero : Option Rat → Rat
  | none => 0
  | some q => q

/-- JS `x || ''` on an optional string (used to read a present symbol). -/
def strOrEmpty : Option String → String
  | none => ""
  | some s => s

/-- JS `x || d` on a number (`0` falls back to the default). -/
def ratOrDefault (x d : Rat) : Rat :=
  if x = 0 then d else x

/-- The `validateDecision(decision, portfolio, config)`: basic field check,
then the risk check (only for `'buy'` decisions carrying a truthy
quantity), then the allowed-symbol check (only when a symbol is
present). -/
def validateDecision (decision : AIDecision) (portfolio : Portfolio)
    (config : AgentConfig) : Bool :=
  if !truthyStr decision.action || !truthyStr decision.reasoning then
    false
  else if (decision.action == some "buy" && truthyNum decision.quantity) &&
      decide (numOrZero decision.quantity * numOrZero decision.price >
        portfolio.cash * ratOrDefault config.maxRiskPerTrade (1/20)) then
    false
  else if truthyStr decision.symbol &&
      !(config.symbols.contains (strOrEmpty decision.symbol)) then
    false
  else
    true

/-- The in-memory state of `AgentDecisionLoop`: `activeLoops` (ids that
own a live timer) and `agentStates`. -/
structure DLState where
  activeLoops : List String
  agentStates : List (String × Agent)
deriving DecidableEq

/-- The `stopAgent`: clear the timer if present, mark the cached agent
state `stopped` if present. -/
def stopAgent (st : DLState) (agentId : String) : DLState :=
  let st1 := { st with activeLoops := st.activeLoops.filter (fun x => x != agentId) }
  match MCP.mapGet st1.agentStates agentId with
  | none => st1
  | some agent =>
    { st1 with agentStates :=
        MCP.mapSet st1.agentStates agentId { agent with status := AgentStatus.stopped } }

/-- The error counter read by `handleDecisionError`:
`totalDecisions - successfulDecisions`. -/
def errorCount (agent : Agent) : Int :=
  (agent.performance.totalDecisions : Int) - (agent.performance.successfulDecisions : Int)

/-- The `handleDecisionError` (the catch branch of a decision cycle): set
status `error`; then, if `totalDecisions - successfulDecisions > 10`,
call `stopAgent` (which cancels the timer and overwrites the status with
`stopped`).  Note it reads the counter without incrementing anything. -/
def handleDecisionError (st : DLState) (agentId : String) : DLState :=
  match MCP.mapGet st.agentStates agentId with
  | none => st
  | some agent =>
    let st1 := { st with
      agentStates := MCP.mapSet st.agentStates agentId { agent with status := AgentStatus.error } }
    if errorCount agent > 10 then stopAgent st1 agentId else st1

/-- The `result` argument of `updatePerformance`. -/
inductive CycleResult where
  | success
  | validationFailed
  | executionFailed
deriving DecidableEq

/-- The `updatePerformance`: `totalDecisions++`, and `successfulDecisions++`
only when the cycle result is `success`. -/
def updatePerformance (st : DLState) (agentId : String) (result : CycleResult) : DLState :=
  match MCP.mapGet st.agentStates agentId with
  | none => st
  | some agent =>
    let perf := agent.performance
    let perf1 :=
      { perf with
        totalDecisions := perf.totalDecisions + 1,
        successfulDecisions :=
          perf.successfulDecisions + (if result = CycleResult.success then 1 else 0) }
    { st with agentStates :=
        MCP.mapSet st.agentStates agentId { agent with performance := perf1 } }

/-- Runs `n` consecutive thrown decision-cycle failures for one agent. -/
def iterFailures (agentId : String) : Nat → DLState → DLState
  | 0, st => st
  | n + 1, st => iterFailures agentId n (handleDecisionError st agentId)

/-- JS `Map.set`-style insertion into the timer key set. -/
def addKey (l : List String) (k : String) : List String :=
  if l.contains k then l else l ++ [k]

/-- The `startAgent`: load the agent (external; `none` models the thrown
`Agent not found`, which leaves the in-memory maps untouched), stop any
existing loop, arm the timer, and cache the agent as `active`.  The
returned flag is `false` when the call threw. -/
def startAgentRun (load : String → Option Agent) (st : DLState) (agentId : String) :
    DLState × Bool :=
  match load agentId with
  | none => (st, false)
  | some agent =>
    let st1 := stopAgent st agentId
    let st2 := { st1 with activeLoops := addKey st1.activeLoops agentId }
    let st3 := { st2 with
      agentStates := MCP.mapSet st2.agentStates agentId { agent with status := AgentStatus.active } }
    (st3, true)

/-- One element of the backend's agent list, as read by `startAllAgents`. -/
structure BackendAgent where
  id : String
  status : String
  autoStart : Bool
deriving DecidableEq

/-- The filter of `startAllAgents`: `status === 'active' || auto_start`. -/
def shouldStart (a : BackendAgent) : Bool :=
  a.status == "active" || a.autoStart

/-- The `startAllAgents`: iterate the backend agent list, awaiting
`startAgent` for each eligible agent inside a single try block, so the
first throw aborts the remainder of the loop (the catch swallows the
error at the batch level). -/
def startAllAgents (load : String → Option Agent) (st : DLState) :
    List BackendAgent → DLState
  | [] => st
  | a :: rest =>
    if shouldStart a then
      match startAgentRun load st a.id with
      | (st1, true) => startAllAgents load st1 rest
      | (st1, false) => st1
    else
      startAllAgents load st rest

end Loop

namespace Fix

open MCP Loop

/-- A permission set whose blocked list contains `trading.place_order`. -/
def permsBlocked : MCPAgentPermissions :=
  { agentId := "a1", allowedTools := [], allowedCategories := [],
    restrictions :=
      { maxCallsPerMinute := 60, maxCallsPerDay := 5000,
        requireApproval := [], blockedTools := ["trading.place_order"] },
    audit := { enabled := true, logLevel := "detailed", retentionDays := 30 } }

/-- Gateway state: default registry, agent `a1` governed by `permsBlocked`. -/
def stBlocked : MCPState :=
  { tools := defaultTools, agentPermissions := [("a1", permsBlocked)],
    callLogs := [], sessions := [], rateLimits := [] }

/-- A permission set allowing all default tools with `maxCallsPerMinute = 1`. -/
def permsOpen : MCPAgentPermissions :=
  { agentId := "a1",
    allowedTools := ["trading.place_order", "analysis.market_sentiment", "system.create_todo"],
    allowedCategories := ["trading", "analysis", "system", "data"],
    restrictions :=
      { maxCallsPerMinute := 1, maxCallsPerDay := 5000,
        requireApproval := [], blockedTools := [] },
    audit := { enabled := true, logLevel := "detailed", retentionDays := 30 } }

/-- An `active` session for agent `a1` with zeroed counters. -/
def sessionA : MCPSession := MCP.createSession "a1" 0

/-- Gateway state: default registry, agent `a1` governed by `permsOpen`,
one `active` session. -/
def stOpen : MCPState :=
  { tools := defaultTools, agentPermissions := [("a1", permsOpen)],
    callLogs := [], sessions := [(sessionA.id, sessionA)], rateLimits := [] }

/-- Gateway state: default registry, no agent activated yet. -/
def stEmpty : MCPState :=
  { tools := defaultTools, agentPermissions := [], callLogs := [],
    sessions := [], rateLimits := [] }

/-- The state after activating agent `a1` twice (at t = 1 and t = 2). -/
def stTwice : MCPState :=
  (MCP.activateForAgent ["a1"] (MCP.activateForAgent ["a1"] stEmpty "a1" 1).state "a1" 2).state

/-- Usage stats of a tool after one successful call (rate 1, mean 4ms). -/
def usedUsage : MCPToolUsage :=
  { totalCalls := 1, lastUsed := 0, successRate := 1, avgResponseTime := 4 }

/-- The order tool carrying `usedUsage`. -/
def usedTool : MCPTool := { placeOrderTool with usage := usedUsage }

/-- Agent config: 30s interval, 5% risk per trade, two allowed symbols. -/
def cfg : AgentConfig :=
  { decisionInterval := 30000, maxRiskPerTrade := 1/20,
    symbols := ["BTC/USD", "ETH/USD"] }

/-- A portfolio with 1000 cash. -/
def pf : Portfolio :=
  { totalValue := 10000, cash := 1000, positions := [], pnl := 0 }

/-- A sell decision costing 100 × 100 = 10000, far above cash × risk = 50. -/
def dSell : AIDecision :=
  { action := some "sell", reasoning := some "take profit", symbol := some "BTC/USD",
    quantity := some 100, price := some 100, confidence := some (4/5) }

/-- A buy decision with the given quantity and price. -/
def dBuyCost (q p : Rat) : AIDecision :=
  { action := some "buy", reasoning := some "momentum entry", symbol := some "BTC/USD",
    quantity := some q, price := some p, confidence := some (4/5) }

/-- An agent with zeroed performance counters, status `active`. -/
def ag0 : Agent :=
  { id := "a1", name := "Alpha", agentType := "momentum",
    status := AgentStatus.active, config := cfg,
    performance :=
      { totalPnL := 0, winRate := 0, trades := 0,
        successfulDecisions := 0, totalDecisions := 0 } }

/-- Loop state: `a1` has a live timer and zeroed counters. -/
def dl0 : DLState := { activeLoops := ["a1"], agentStates := [("a1", ag0)] }

/-- The `ag0` with `totalDecisions = 11` (error counter 11). -/
def ag11 : Agent :=
  { ag0 with performance := { ag0.performance with totalDecisions := 11 } }

/-- Loop state: `a1` has a live timer and error counter 11. -/
def dl11 : DLState := { activeLoops := ["a1"], agentStates := [("a1", ag11)] }

/-- The agent `b` as the backend would return it. -/
def agB : Agent := { ag0 with id := "b" }

/-- A load function that finds agent `b` but not agent `a`. -/
def loadB : String → Option Agent := fun s => if s = "b" then some agB else none

/-- Backend list entry for agent `a` (eligible to start). -/
def baA : BackendAgent := { id := "a", status := "active", autoStart := false }

/-- Backend list entry for agent `b` (eligible to start). -/
def baB : BackendAgent := { id := "b", status := "active", autoStart := false }

/-- An empty loop state. -/
def dlEmpty : DLState := { activeLoops := [], agentStates := [] }

end Fix

namespace MCP

/-- Is a tool id one of the ids `executeTool` implements? -/
def implementedId (s : String) : Bool :=
  s == "trading.place_order" || s == "analysis.market_sentiment" || s == "system.create_todo"

/-- Is a call outcome a returned value (rather than a thrown error)? -/
def isOkB : Except String ToolResponse → Bool
  | Except.ok _ => true
  | Except.error _ => false

/-- Runs `k` successive `callTool` invocations with the same arguments,
threading the service state and collecting the outcomes. -/
def callToolTimes (agentId toolId : String) (params : Params) (now dur : Nat) :
    Nat → MCPState → MCPState × List (Except String ToolResponse)
  | 0, st => (st, [])
  | k + 1, st =>
    let r := callTool st agentId toolId params now dur
    let rest := callToolTimes agentId toolId params now dur k r.state
    (rest.1, r.outcome :: rest.2)

/-- Modelled from the spec: the standard incremental-mean update
`newAvg = oldAvg + (value - oldAvg) / count`. -/
def incrementalMean (oldAvg value : Rat) (count : Nat) : Rat :=
  oldAvg + (value - oldAvg) / (count : Rat)

theorem find?_replace {α : Type} (m : List (String × α)) (k : String) (v : α) :
    (m.map (fun kv => if kv.1 = k then (k, v) else kv)).find? (fun kv => decide (kv.1 = k)) =
      if (m.find? (fun kv => decide (kv.1 = k))).isSome then some (k, v) else none := by
  induction m with
  | nil => simp
  | cons a as ih =>
    by_cases ha : a.1 = k
    · simp [List.find?_cons, ha]
    · have hd : decide (a.1 = k) = false := decide_eq_false ha
      simp only [List.find?_cons, hd]
      simp [-List.find?_map, List.find?_cons, ha, hd, ih]

theorem find?_replace_ne {α : Type} (m : List (String × α)) (k k2 : String) (v : α)
    (h : ¬ k2 = k) :
    (m.map (fun kv => if kv.1 = k then (k, v) else kv)).find? (fun kv => decide (kv.1 = k2)) =
      m.find? (fun kv => decide (kv.1 = k2)) := by
  have hkk2 : ¬ (k = k2) := fun hc => h hc.symm
  induction m with
  | nil => simp
  | cons a as ih =>
    by_cases ha : a.1 = k
    · simp [-List.find?_map, List.find?_cons, ha, hkk2, ih]
    · by_cases hb : a.1 = k2
      · have hd : decide (a.1 = k2) = true := decide_eq_true hb
        simp [List.find?_cons, ha, h, hb, hd]
      · have hd : decide (a.1 = k2) = false := decide_eq_false hb
        simp [-List.find?_map, List.find?_cons, ha, hb, hd, ih]

theorem mapGet_mapSet_self {α : Type} (m : List (String × α)) (k : String) (v : α) :
    mapGet (mapSet m k v) k = some v := by
  unfold mapGet mapSet
  by_cases h : (m.find? (fun kv => decide (kv.1 = k))).isSome = true
  · rw [if_pos h, find?_replace, if_pos h]; rfl
  · rw [if_neg h]
    have hm : m.find? (fun kv => decide (kv.1 = k)) = none := by
      cases hf : m.find? (fun kv => decide (kv.1 = k)) with
      | none => rfl
      | some x => exact absurd (by rw [hf]; rfl) h
    rw [List.find?_append, hm]
    simp [List.find?_cons]

theorem mapGet_mapSet_ne {α : Type} (m : List (String × α)) (k k2 : String) (v : α)
    (h : ¬ k2 = k) : mapGet (mapSet m k v) k2 = mapGet m k2 := by
  unfold mapGet mapSet
  by_cases hs : (m.find? (fun kv => decide (kv.1 = k))).isSome = true
  · rw [if_pos hs, find?_replace_ne _ _ _ _ h]
  · rw [if_neg hs, List.find?_append]
    have hsingle : (([(k, v)] : List (String × α)).find? (fun kv => decide (kv.1 = k2))) = none := by
      have hkk2 : ¬ (k = k2) := fun hc => h hc.symm
      simp [List.find?_cons, hkk2]
    rw [hsingle]
    cases m.find? (fun kv => decide (kv.1 = k2)) <;> rfl

theorem updateToolUsage_totalCalls (tools : List (String × MCPTool)) (toolId : String)
    (success : Bool) (dur now : Nat) (tool : MCPTool)
    (h : mapGet tools toolId = some tool) :
    ∃ tool2, mapGet (updateToolUsage tools toolId success dur now) toolId = some tool2 ∧
      tool2.id = tool.id ∧ tool2.enabled = tool.enabled ∧
      tool2.usage.totalCalls = tool.usage.totalCalls + 1 := by
  unfold updateToolUsage
  rw [h]
  refine ⟨_, mapGet_mapSet_self _ _ _, ?_, ?_, ?_⟩
  · rfl
  · rfl
  · rfl

theorem updateToolUsage_other (tools : List (String × MCPTool)) (toolId : String)
    (success : Bool) (dur now : Nat) (tid : String) (h : ¬ tid = toolId) :
    mapGet (updateToolUsage tools toolId success dur now) tid = mapGet tools tid := by
  unfold updateToolUsage
  cases mapGet tools toolId with
  | none => rfl
  | some tool => exact mapGet_mapSet_ne _ _ _ _ h

theorem logCall_getLast (logs : List MCPCallLog) (r : MCPCallLog) :
    (logCall logs r).getLast? = some r := by
  unfold logCall
  by_cases h : (logs ++ [r]).length > 1000
  · rw [if_pos h]
    rw [List.drop_append_of_le_length (by simp)]
    exact List.getLast?_concat _
  · rw [if_neg h]
    exact List.getLast?_concat _

theorem callTool_frame (st : MCPState) (agentId toolId : String) (p : Params)
    (now dur : Nat) :
    (callTool st agentId toolId p now dur).state.sessions = st.sessions ∧
    (callTool st agentId toolId p now dur).state.agentPermissions = st.agentPermissions ∧
    (callTool st agentId toolId p now dur).state.rateLimits = st.rateLimits := by
  refine ⟨?_, ?_, ?_⟩ <;> (unfold callTool callToolFail; repeat' split) <;> rfl

theorem callTool_log_tools (st : MCPState) (agentId toolId : String) (p : Params)
    (now dur : Nat) :
    ∃ (r : MCPCallLog) (b : Bool),
      r.agentId = agentId ∧ r.toolId = toolId ∧ r.parameters = p ∧
      (callTool st agentId toolId p now dur).state.callLogs = logCall st.callLogs r ∧
      (callTool st agentId toolId p now dur).state.tools =
        updateToolUsage st.tools toolId b dur (now + dur) := by
  unfold callTool callToolFail
  repeat' split
  all_goals exact ⟨_, _, rfl, rfl, rfl, rfl, rfl⟩

theorem executeTool_implemented (tool : MCPTool) (p : Params) (agentId : String)
    (hi : implementedId tool.id = true) :
    ∃ resp, executeTool tool p agentId = ([⟨tool.id, p⟩], Except.ok resp) := by
  by_cases h1 : tool.id = "trading.place_order"
  · exact ⟨ToolResponse.orderPlaced agentId p, by unfold executeTool; rw [h1]; rfl⟩
  · by_cases h2 : tool.id = "analysis.market_sentiment"
    · exact ⟨ToolResponse.sentiment p, by unfold executeTool; rw [h2]; rfl⟩
    · by_cases h3 : tool.id = "system.create_todo"
      · exact ⟨ToolResponse.todoCreated agentId p, by unfold executeTool; rw [h3]; rfl⟩
      · exfalso
        unfold implementedId at hi
        simp only [Bool.or_eq_true, beq_iff_eq] at hi
        tauto

theorem callTool_dispatch_of (st : MCPState) (agentId toolId : String) (p : Params)
    (now dur : Nat) (tool : MCPTool)
    (hp : (mapGet st.agentPermissions agentId).isSome = true)
    (ht : mapGet st.tools toolId = some tool)
    (he : tool.enabled = true)
    (hi : implementedId tool.id = true) :
    (callTool st agentId toolId p now dur).dispatches = [⟨tool.id, p⟩] ∧
    isOkB (callTool st agentId toolId p now dur).outcome = true := by
  obtain ⟨perms, hperm⟩ := Option.isSome_iff_exists.mp hp
  obtain ⟨resp, hexec⟩ := executeTool_implemented tool p agentId hi
  unfold callTool
  simp only [hperm, ht, he, hexec, eq_self_iff_true, if_true]
  exact ⟨by trivial, by trivial⟩

theorem callTool_tool_preserved (st : MCPState) (agentId toolId : String) (p : Params)
    (now dur : Nat) (tool : MCPTool) (ht : mapGet st.tools toolId = some tool) :
    ∃ tool2, mapGet (callTool st agentId toolId p now dur).state.tools toolId = some tool2 ∧
      tool2.id = tool.id ∧ tool2.enabled = tool.enabled ∧
      tool2.usage.totalCalls = tool.usage.totalCalls + 1 := by
  obtain ⟨r, b, _, _, _, _, htools⟩ := callTool_log_tools st agentId toolId p now dur
  rw [htools]
  exact updateToolUsage_totalCalls st.tools toolId b dur (now + dur) tool ht

theorem callToolTimes_all_ok (agentId toolId : String) (p : Params) (now dur : Nat) :
    ∀ (k : Nat) (st : MCPState) (tool : MCPTool),
      (mapGet st.agentPermissions agentId).isSome = true →
      mapGet st.tools toolId = some tool →
      tool.enabled = true →
      implementedId tool.id = true →
      (callToolTimes agentId toolId p now dur k st).2.all isOkB = true ∧
      (callToolTimes agentId toolId p now dur k st).1.rateLimits = st.rateLimits := by
  intro k
  induction k with
  | zero =>
    intro st tool hp ht he hi
    exact ⟨rfl, rfl⟩
  | succ n ih =>
    intro st tool hp ht he hi
    obtain ⟨hds, hok⟩ := callTool_dispatch_of st agentId toolId p now dur tool hp ht he hi
    obtain ⟨hsess, hperm, hrate⟩ := callTool_frame st agentId toolId p now dur
    obtain ⟨tool2, ht2, hid2, hen2, _⟩ :=
      callTool_tool_preserved st agentId toolId p now dur tool ht
    have hp2 : (mapGet (callTool st agentId toolId p now dur).state.agentPermissions
        agentId).isSome = true := by
      rw [hperm]; exact hp
    obtain ⟨ihall, ihrate⟩ := ih (callTool st agentId toolId p now dur).state tool2 hp2 ht2
      (hen2.trans he) (by rw [hid2]; exact hi)
    constructor
    · simp [callToolTimes, List.all_cons, hok, ihall]
    · simp [callToolTimes, ihrate, hrate]

theorem mapSet_fresh {α : Type} (m : List (String × α)) (k : String) (v : α)
    (hf : m.find? (fun kv => decide (kv.1 = k)) = none) :
    mapSet m k v = m ++ [(k, v)] := by
  unfold mapSet
  rw [hf]
  rfl

theorem activateForAgent_state (known : List String) (st : MCPState) (agentId : String)
    (now : Nat) (hk : known.contains agentId = true) :
    activateForAgent known st agentId now =
      { state := { st with
          agentPermissions :=
            mapSet st.agentPermissions agentId (createAgentPermissions agentId st.tools),
          sessions :=
            mapSet st.sessions (createSession agentId now).id (createSession agentId now) },
        success := true } := by
  unfold activateForAgent
  rw [if_pos hk]

/-- C1 counterexample: agent `a1` is registered with a permission set
that blocks `trading.place_order` (and allows nothing), yet `callTool`
returns successfully and dispatches the order implementation once,
instead of failing with a permission error without dispatching. -/
theorem blocked_tool_call_dispatched_cex :
    Fix.permsBlocked.restrictions.blockedTools.contains "trading.place_order" = true ∧
    Fix.permsBlocked.allowedTools.contains "trading.place_order" = false ∧
    Fix.permsBlocked.allowedCategories.contains "trading" = false ∧
    mapGet Fix.stBlocked.agentPermissions "a1" = some Fix.permsBlocked ∧
    (callTool Fix.stBlocked "a1" "trading.place_order" [] 0 5).dispatches =
      [⟨"trading.place_order", []⟩] ∧
    isOkB (callTool Fix.stBlocked "a1" "trading.place_order" [] 0 5).outcome = true := by
  decide

/-- C1 (amended): `callTool` performs no authorization check.  For a
registered agent and an enabled, implemented tool, the call dispatches
exactly once and returns successfully even when the tool id is neither
allow-listed nor category-granted, or is explicitly blocked; the
allow/category/blocked filtering exists only in `getAvailableTools`,
which then excludes the tool. -/
theorem callTool_no_authorization_check (st : MCPState) (agentId toolId : String)
    (p : Params) (now dur : Nat) (perms : MCPAgentPermissions) (tool : MCPTool)
    (hp : mapGet st.agentPermissions agentId = some perms)
    (ht : mapGet st.tools toolId = some tool)
    (hid : tool.id = toolId)
    (he : tool.enabled = true)
    (hi : implementedId tool.id = true)
    (hdeny : (perms.allowedTools.contains toolId = false ∧
              perms.allowedCategories.contains tool.category = false) ∨
             perms.restrictions.blockedTools.contains toolId = true) :
    (callTool st agentId toolId p now dur).dispatches = [⟨tool.id, p⟩] ∧
    isOkB (callTool st agentId toolId p now dur).outcome = true ∧
    tool ∉ getAvailableTools st agentId := by
  obtain ⟨h1, h2⟩ :=
    callTool_dispatch_of st agentId toolId p now dur tool (by rw [hp]; rfl) ht he hi
  refine ⟨h1, h2, ?_⟩
  intro hmem
  unfold getAvailableTools at hmem
  simp only [hp] at hmem
  rcases List.mem_filter.mp hmem with ⟨-, hpred⟩
  simp only [Bool.and_eq_true, Bool.not_eq_true'] at hpred
  obtain ⟨⟨hen, hallow⟩, hblock⟩ := hpred
  rcases hdeny with ⟨hna, hnc⟩ | hb
  · simp only [Bool.or_eq_true] at hallow
    rcases hallow with hal | hal
    · rw [hid, hna] at hal
      simp at hal
    · rw [hnc] at hal
      simp at hal
  · rw [hid, hb] at hblock
    simp at hblock

/-- C1 witness: the amended theorem applied to the blocked-tool state. -/
theorem callTool_no_authorization_check_witness :
    (callTool Fix.stBlocked "a1" "trading.place_order" [] 0 5).dispatches =
      [⟨placeOrderTool.id, []⟩] ∧
    isOkB (callTool Fix.stBlocked "a1" "trading.place_order" [] 0 5).outcome = true ∧
    placeOrderTool ∉ getAvailableTools Fix.stBlocked "a1" :=
  callTool_no_authorization_check Fix.stBlocked "a1" "trading.place_order" [] 0 5
    Fix.permsBlocked placeOrderTool (by decide) (by decide) (by decide) (by decide)
    (by decide) (Or.inr (by decide))

/-- C2 counterexample: agent `a1` has `maxCallsPerMinute = 1`, yet the
second call with the same arguments inside the same minute (timestamps
0 and 10) also returns successfully and dispatches, instead of failing
rate-limited; the rate-limit table stays empty. -/
theorem rate_limit_not_enforced_cex :
    Fix.permsOpen.restrictions.maxCallsPerMinute = 1 ∧
    isOkB (callTool Fix.stOpen "a1" "system.create_todo" [] 0 5).outcome = true ∧
    isOkB (callTool (callTool Fix.stOpen "a1" "system.create_todo" [] 0 5).state
        "a1" "system.create_todo" [] 10 5).outcome = true ∧
    (callTool (callTool Fix.stOpen "a1" "system.create_todo" [] 0 5).state
        "a1" "system.create_todo" [] 10 5).dispatches = [⟨"system.create_todo", []⟩] ∧
    (callTool (callTool Fix.stOpen "a1" "system.create_todo" [] 0 5).state
        "a1" "system.create_todo" [] 10 5).state.rateLimits = [] := by
  decide

/-- C2 (amended): `callTool` never consults or updates the rate-limit
table.  For a registered agent with `maxCallsPerMinute = n` and an
enabled, implemented tool, all of `n + 1` back-to-back calls with the
same timestamp (hence inside one window) return successfully, and the
`rateLimits` state is left exactly as it was. -/
theorem callTool_no_rate_limit_check (st : MCPState) (agentId toolId : String)
    (p : Params) (now dur : Nat) (perms : MCPAgentPermissions) (tool : MCPTool) (n : Nat)
    (hp : mapGet st.agentPermissions agentId = some perms)
    (hq : perms.restrictions.maxCallsPerMinute = n)
    (ht : mapGet st.tools toolId = some tool)
    (he : tool.enabled = true)
    (hi : implementedId tool.id = true) :
    (callToolTimes agentId toolId p now dur (n + 1) st).2.all isOkB = true ∧
    (callToolTimes agentId toolId p now dur (n + 1) st).1.rateLimits = st.rateLimits :=
  callToolTimes_all_ok agentId toolId p now dur (n + 1) st tool (by rw [hp]; rfl) ht he hi

/-- C2 witness: the amended theorem applied to `stOpen` (quota 1, two
calls). -/
theorem callTool_no_rate_limit_check_witness :
    (callToolTimes "a1" "system.create_todo" [] 0 5 2 Fix.stOpen).2.all isOkB = true ∧
    (callToolTimes "a1" "system.create_todo" [] 0 5 2 Fix.stOpen).1.rateLimits =
      Fix.stOpen.rateLimits :=
  callTool_no_rate_limit_check Fix.stOpen "a1" "system.create_todo" [] 0 5
    Fix.permsOpen createTodoTool 1 (by decide) (by decide) (by decide) (by decide) (by decide)

/-- C3 counterexample: the empty parameter map violates the
`trading.place_order` schema (required `symbol`, `side`, `amount` all
missing), yet the call dispatches the order implementation once and
returns successfully, instead of failing with an invalid-parameters
error with dispatch count 0. -/
theorem invalid_params_dispatched_cex :
    paramsConformSchema placeOrderTool [] = false ∧
    mapGet Fix.stOpen.tools "trading.place_order" = some placeOrderTool ∧
    (callTool Fix.stOpen "a1" "trading.place_order" [] 0 5).dispatches.length = 1 ∧
    isOkB (callTool Fix.stOpen "a1" "trading.place_order" [] 0 5).outcome = true := by
  decide

/-- C3 (amended): `callTool` performs no parameter validation.  For a
registered agent and an enabled, implemented tool, a call whose
parameters violate the tool's declared schema is still dispatched to
the implementation exactly once and returns successfully. -/
theorem callTool_no_parameter_validation (st : MCPState) (agentId toolId : String)
    (p : Params) (now dur : Nat) (tool : MCPTool)
    (hp : (mapGet st.agentPermissions agentId).isSome = true)
    (ht : mapGet st.tools toolId = some tool)
    (he : tool.enabled = true)
    (hi : implementedId tool.id = true)
    (hbad : paramsConformSchema tool p = false) :
    (callTool st agentId toolId p now dur).dispatches = [⟨tool.id, p⟩] ∧
    isOkB (callTool st agentId toolId p now dur).outcome = true :=
  callTool_dispatch_of st agentId toolId p now dur tool hp ht he hi

/-- C3 witness: the amended theorem applied to the order tool with an
empty (schema-violating) parameter map. -/
theorem callTool_no_parameter_validation_witness :
    (callTool Fix.stOpen "a1" "trading.place_order" [] 0 5).dispatches =
      [⟨placeOrderTool.id, []⟩] ∧
    isOkB (callTool Fix.stOpen "a1" "trading.place_order" [] 0 5).outcome = true :=
  callTool_no_parameter_validation Fix.stOpen "a1" "trading.place_order" [] 0 5
    placeOrderTool (by decide) (by decide) (by decide) (by decide) (by decide)

/-- C4 counterexample: activating agent `a1` twice (with no
deactivation in between) leaves two sessions with status `active` for
that agent, violating the at-most-one-active-session claim — the second
activation created a session even though one was already `Active`. -/
theorem double_activation_two_active_sessions_cex :
    (activateForAgent ["a1"] Fix.stEmpty "a1" 1).success = true ∧
    countActiveSessions (activateForAgent ["a1"] Fix.stEmpty "a1" 1).state "a1" = 1 ∧
    (activateForAgent ["a1"] (activateForAgent ["a1"] Fix.stEmpty "a1" 1).state "a1" 2).success
      = true ∧
    countActiveSessions Fix.stTwice "a1" = 2 := by
  decide

/-- C4 (amended): `activateForAgent` creates a fresh `active` session
unconditionally — it never checks whether the agent already has an
`Active` session — so every successful activation (known agent, fresh
session id) increases the number of the agent's `active` sessions by
one, and repeated activation yields several simultaneously `Active`
sessions. -/
theorem activateForAgent_always_adds_active_session (known : List String) (st : MCPState)
    (agentId : String) (now : Nat)
    (hk : known.contains agentId = true)
    (hfresh : mapGet st.sessions ("session_" ++ agentId ++ "_" ++ toString now) = none) :
    (activateForAgent known st agentId now).success = true ∧
    countActiveSessions (activateForAgent known st agentId now).state agentId =
      countActiveSessions st agentId + 1 := by
  have hf : st.sessions.find?
      (fun kv => decide (kv.1 = (createSession agentId now).id)) = none := by
    unfold mapGet at hfresh
    unfold createSession
    exact Option.map_eq_none'.mp hfresh
  rw [activateForAgent_state known st agentId now hk]
  refine ⟨rfl, ?_⟩
  unfold countActiveSessions
  show ((mapSet st.sessions (createSession agentId now).id
      (createSession agentId now)).filter
      (fun kv => kv.2.agentId == agentId && kv.2.status == SessionStatus.active)).length =
    (st.sessions.filter
      (fun kv => kv.2.agentId == agentId && kv.2.status == SessionStatus.active)).length + 1
  rw [mapSet_fresh _ _ _ hf, List.filter_append]
  simp [createSession]

/-- C4 witness: the amended theorem applied to the empty state. -/
theorem activateForAgent_always_adds_active_session_witness :
    (activateForAgent ["a1"] Fix.stEmpty "a1" 1).success = true ∧
    countActiveSessions (activateForAgent ["a1"] Fix.stEmpty "a1" 1).state "a1" =
      countActiveSessions Fix.stEmpty "a1" + 1 :=
  activateForAgent_always_adds_active_session ["a1"] Fix.stEmpty "a1" 1
    (by decide) (by decide)

/-- C5 counterexample: with an `active` session present for `a1`, a
successful call leaves the entire session table — in particular that
session's counters — bit-for-bit unchanged, so no session's call
counters are updated, contradicting "updates exactly one Session's call
counters". -/
theorem call_leaves_sessions_unchanged_cex :
    countActiveSessions Fix.stOpen "a1" = 1 ∧
    isOkB (callTool Fix.stOpen "a1" "analysis.market_sentiment" [] 3 4).outcome = true ∧
    (callTool Fix.stOpen "a1" "analysis.market_sentiment" [] 3 4).state.sessions =
      Fix.stOpen.sessions := by
  decide

/-- C5 (amended): every `callTool` run — success or failure — appends
exactly one call record for this agent and tool (evicting the oldest
beyond capacity 1000), never touches sessions, permissions or rate
limits, increments the target tool's `totalCalls` by exactly one when
that tool exists, and leaves every other tool's stats unchanged.
Session counters are never updated by a call. -/
theorem callTool_side_effects (st : MCPState) (agentId toolId : String)
    (p : Params) (now dur : Nat) :
    (callTool st agentId toolId p now dur).state.sessions = st.sessions ∧
    (callTool st agentId toolId p now dur).state.agentPermissions = st.agentPermissions ∧
    (callTool st agentId toolId p now dur).state.rateLimits = st.rateLimits ∧
    (∃ r : MCPCallLog, r.agentId = agentId ∧ r.toolId = toolId ∧
      (callTool st agentId toolId p now dur).state.callLogs = logCall st.callLogs r ∧
      (callTool st agentId toolId p now dur).state.callLogs.getLast? = some r) ∧
    (∀ tid, ¬ tid = toolId →
      mapGet (callTool st agentId toolId p now dur).state.tools tid = mapGet st.tools tid) ∧
    (∀ tool, mapGet st.tools toolId = some tool →
      ∃ tool2, mapGet (callTool st agentId toolId p now dur).state.tools toolId = some tool2 ∧
        tool2.usage.totalCalls = tool.usage.totalCalls + 1) := by
  obtain ⟨hsess, hperm, hrate⟩ := callTool_frame st agentId toolId p now dur
  obtain ⟨r, b, hra, hrt, hrp, hlogs, htools⟩ := callTool_log_tools st agentId toolId p now dur
  refine ⟨hsess, hperm, hrate, ⟨r, hra, hrt, hlogs, ?_⟩, ?_, ?_⟩
  · rw [hlogs]
    exact logCall_getLast _ _
  · intro tid hne
    rw [htools]
    exact updateToolUsage_other _ _ _ _ _ _ hne
  · intro tool ht
    rw [htools]
    obtain ⟨tool2, h1, _, _, h4⟩ := updateToolUsage_totalCalls _ _ _ _ _ _ ht
    exact ⟨tool2, h1, h4⟩

/-- C5 witness: the frame theorem applied at a concrete call; the
sessions-unchanged component is extracted. -/
theorem callTool_side_effects_witness :
    (callTool Fix.stOpen "a1" "analysis.market_sentiment" [] 3 4).state.sessions =
      Fix.stOpen.sessions :=
  (callTool_side_effects Fix.stOpen "a1" "analysis.market_sentiment" [] 3 4).1

/-- C8 (code bug): with `totalCalls = 1` and `successRate = 1`, one
more successful call makes the code set `successRate` to `3/2` — the
weighted sum multiplies the old rate by the post-increment count — while
the standard incremental mean `newAvg = oldAvg + (value - oldAvg)/count`
yields `1`.  `avgResponseTime` (old mean 4, duration 2) does follow the
incremental mean, and `totalCalls` is incremented. -/
theorem updateToolUsage_successRate_deviates :
    ((mapGet (updateToolUsage [("trading.place_order", Fix.usedTool)]
        "trading.place_order" true 2 9) "trading.place_order").map
        (fun t => t.usage.successRate)) = some (3/2) ∧
    incrementalMean 1 1 2 = 1 ∧
    ¬ ((3 : Rat)/2 = incrementalMean 1 1 2) ∧
    ((mapGet (updateToolUsage [("trading.place_order", Fix.usedTool)]
        "trading.place_order" true 2 9) "trading.place_order").map
        (fun t => t.usage.avgResponseTime)) = some (incrementalMean 4 2 2) ∧
    ((mapGet (updateToolUsage [("trading.place_order", Fix.usedTool)]
        "trading.place_order" true 2 9) "trading.place_order").map
        (fun t => t.usage.totalCalls)) = some 2 := by
  refine ⟨?_, ?_, ?_, ?_, ?_⟩
  · simp [updateToolUsage, mapGet, mapSet, Fix.usedTool, Fix.usedUsage]
    norm_num
  · norm_num [incrementalMean]
  · norm_num [incrementalMean]
  · simp [updateToolUsage, mapGet, mapSet, Fix.usedTool, Fix.usedUsage, incrementalMean]
    norm_num
  · simp [updateToolUsage, mapGet, mapSet, Fix.usedTool, Fix.usedUsage]

end MCP

namespace Loop

theorem validateDecision_false_iff (d : AIDecision) (portfolio : Portfolio)
    (config : AgentConfig) :
    validateDecision d portfolio config = false ↔
      truthyStr d.action = false ∨ truthyStr d.reasoning = false ∨
      (d.action = some "buy" ∧ truthyNum d.quantity = true ∧
        numOrZero d.quantity * numOrZero d.price >
          portfolio.cash * ratOrDefault config.maxRiskPerTrade (1/20)) ∨
      (truthyStr d.symbol = true ∧
        config.symbols.contains (strOrEmpty d.symbol) = false) := by
  by_cases hb : d.action = some "buy" <;>
  cases hA : truthyStr d.action <;> cases hR : truthyStr d.reasoning <;>
  cases hQ : truthyNum d.quantity <;>
  by_cases hC : numOrZero d.quantity * numOrZero d.price >
      portfolio.cash * ratOrDefault config.maxRiskPerTrade (1/20) <;>
  cases hS : truthyStr d.symbol <;>
  cases hM : config.symbols.contains (strOrEmpty d.symbol) <;>
  simp_all [validateDecision, truthyStr]

/-- C6 counterexample: a sell decision with present action and
rationale and an allow-listed symbol, whose estimated cost
100 × 100 = 10000 far exceeds cash × maxRiskPerTrade = 50, is
nevertheless accepted — "rejects exactly when estimated cost exceeds
cash × maxRiskPerTrade" fails for non-buy decisions. -/
theorem expensive_sell_accepted_cex :
    validateDecision Fix.dSell Fix.pf Fix.cfg = true ∧
    numOrZero Fix.dSell.quantity * numOrZero Fix.dSell.price >
      Fix.pf.cash * Fix.cfg.maxRiskPerTrade ∧
    truthyStr Fix.dSell.action = true ∧ truthyStr Fix.dSell.reasoning = true := by
  refine ⟨?_, ?_, by decide, by decide⟩
  · simp [validateDecision, Fix.dSell, Fix.pf, Fix.cfg, truthyStr, truthyNum,
      numOrZero, strOrEmpty, ratOrDefault]
  · simp [Fix.dSell, Fix.pf, Fix.cfg, numOrZero]
    norm_num

/-- C6 (amended): the validator rejects exactly when the decision lacks
a (truthy) action or rationale, or it is a `'buy'` carrying a truthy
quantity whose quantity × (price or 0) exceeds
cash × maxRiskPerTrade (with 0.05 substituted when the configured value
is 0), or it carries a symbol outside the allowed set; in particular
with cash = 1000 and maxRiskPerTrade = 0.05 a buy of cost 60 is
rejected and a buy of cost 40 is accepted. -/
theorem validateDecision_reject_conditions :
    (∀ (d : AIDecision) (portfolio : Portfolio) (config : AgentConfig),
      validateDecision d portfolio config = false ↔
        truthyStr d.action = false ∨ truthyStr d.reasoning = false ∨
        (d.action = some "buy" ∧ truthyNum d.quantity = true ∧
          numOrZero d.quantity * numOrZero d.price >
            portfolio.cash * ratOrDefault config.maxRiskPerTrade (1/20)) ∨
        (truthyStr d.symbol = true ∧
          config.symbols.contains (strOrEmpty d.symbol) = false)) ∧
    validateDecision (Fix.dBuyCost 6 10) Fix.pf Fix.cfg = false ∧
    validateDecision (Fix.dBuyCost 4 10) Fix.pf Fix.cfg = true := by
  refine ⟨validateDecision_false_iff, ?_, ?_⟩
  · simp [validateDecision, Fix.dBuyCost, Fix.pf, Fix.cfg, truthyStr, truthyNum,
      numOrZero, strOrEmpty, ratOrDefault]
    norm_num
  · simp [validateDecision, Fix.dBuyCost, Fix.pf, Fix.cfg, truthyStr, truthyNum,
      numOrZero, strOrEmpty, ratOrDefault]
    norm_num

/-- C6 witness: the 60-cost buy of the amended theorem, extracted. -/
theorem validateDecision_reject_conditions_witness :
    validateDecision (Fix.dBuyCost 6 10) Fix.pf Fix.cfg = false :=
  validateDecision_reject_conditions.2.1

/-- C10 (confirmed): the risk-limit check applies only to `'buy'`
decisions carrying a truthy quantity — every decision with present
action and rationale whose action is not `'buy'` (or which carries no
quantity), and whose symbol is absent or allow-listed, passes
validation regardless of its quantity × price cost. -/
theorem validateDecision_risk_check_only_buys (d : AIDecision) (portfolio : Portfolio)
    (config : AgentConfig)
    (ha : truthyStr d.action = true) (hr : truthyStr d.reasoning = true)
    (hb : d.action ≠ some "buy" ∨ truthyNum d.quantity = false)
    (hs : truthyStr d.symbol = false ∨
      config.symbols.contains (strOrEmpty d.symbol) = true) :
    validateDecision d portfolio config = true := by
  cases hv : validateDecision d portfolio config
  · exfalso
    rcases (validateDecision_false_iff d portfolio config).mp hv with h | h | h | h
    · rw [ha] at h
      simp at h
    · rw [hr] at h
      simp at h
    · obtain ⟨h1, h2, -⟩ := h
      rcases hb with hb | hb
      · exact hb h1
      · rw [hb] at h2
        simp at h2
    · obtain ⟨h1, h2⟩ := h
      rcases hs with hs | hs
      · rw [hs] at h1
        simp at h1
      · rw [hs] at h2
        simp at h2
  · rfl

/-- C10 witness: the expensive sell passes validation. -/
theorem validateDecision_risk_check_only_buys_witness :
    validateDecision Fix.dSell Fix.pf Fix.cfg = true :=
  validateDecision_risk_check_only_buys Fix.dSell Fix.pf Fix.cfg (by decide) (by decide)
    (Or.inl (by decide)) (Or.inr (by decide))

/-- C7 counterexample: starting from zeroed counters, 11 consecutive
thrown cycle failures leave the timer armed (`activeLoops` still holds
the agent) and leave the error counter at 0 — the status is `error`,
but the claimed timer cancellation after threshold+1 failures does not
happen, because thrown failures never increment
`totalDecisions − successfulDecisions`. -/
theorem eleven_failures_timer_armed_cex :
    (iterFailures "a1" 11 Fix.dl0).activeLoops = ["a1"] ∧
    (MCP.mapGet (iterFailures "a1" 11 Fix.dl0).agentStates "a1").map
      (fun a => a.status) = some AgentStatus.error ∧
    (MCP.mapGet (iterFailures "a1" 11 Fix.dl0).agentStates "a1").map errorCount = some 0 := by
  decide

/-- C7 (amended): a thrown cycle failure sets the agent's status to
`error` without touching the performance counters; only when
`totalDecisions − successfulDecisions` (which grows via recorded
decision outcomes, not via thrown failures) already exceeds 10 does
`stopAgent` run, cancelling the timer — and then the final status is
`stopped`, overwriting `error`. -/
theorem handleDecisionError_spec (st : DLState) (agentId : String) (agent : Agent)
    (h : MCP.mapGet st.agentStates agentId = some agent) :
    MCP.mapGet (handleDecisionError st agentId).agentStates agentId =
      some { agent with status :=
        (if errorCount agent > 10 then AgentStatus.stopped else AgentStatus.error) } ∧
    (handleDecisionError st agentId).activeLoops =
      (if errorCount agent > 10 then st.activeLoops.filter (fun x => x != agentId)
       else st.activeLoops) := by
  unfold handleDecisionError
  simp only [h]
  by_cases hc : errorCount agent > 10
  · simp only [if_pos hc]
    unfold stopAgent
    simp only [MCP.mapGet_mapSet_self]
    refine ⟨?_, ?_⟩
    · first
      | rfl
      | exact MCP.mapGet_mapSet_self _ _ _
      | trivial
    · first
      | rfl
      | trivial
  · simp only [if_neg hc]
    refine ⟨?_, ?_⟩
    · first
      | rfl
      | exact MCP.mapGet_mapSet_self _ _ _
      | trivial
    · first
      | rfl
      | trivial

/-- C7 witness: the amended theorem applied to an agent whose error
counter is already 11 (the stop branch). -/
theorem handleDecisionError_spec_witness :
    MCP.mapGet (handleDecisionError Fix.dl11 "a1").agentStates "a1" =
      some { Fix.ag11 with status :=
        (if errorCount Fix.ag11 > 10 then AgentStatus.stopped else AgentStatus.error) } ∧
    (handleDecisionError Fix.dl11 "a1").activeLoops =
      (if errorCount Fix.ag11 > 10 then Fix.dl11.activeLoops.filter (fun x => x != "a1")
       else Fix.dl11.activeLoops) :=
  handleDecisionError_spec Fix.dl11 "a1" Fix.ag11 rfl

/-- C9 counterexample: agents `a` and `b` are both eligible and `b`
alone starts fine, yet running `startAllAgents` over `[a, b]` — where
`a` fails to load — starts nobody: the thrown failure on `a` aborts the
whole batch before `b` is attempted. -/
theorem startAll_abort_cex :
    shouldStart Fix.baB = true ∧
    (startAgentRun Fix.loadB Fix.dlEmpty "b").2 = true ∧
    (startAgentRun Fix.loadB Fix.dlEmpty "b").1.activeLoops = ["b"] ∧
    (startAllAgents Fix.loadB Fix.dlEmpty [Fix.baA, Fix.baB]).activeLoops = [] := by
  decide

/-- C9 (amended): `startAllAgents` awaits each eligible start inside a
single try block, so the first agent whose start throws aborts the
remainder of the loop: no agent after it is attempted and the state is
left as it was at the failure (a failing load leaves the maps
untouched). -/
theorem startAllAgents_stops_at_first_failure (load : String → Option Agent)
    (st : DLState) (a : BackendAgent) (rest : List BackendAgent)
    (hs : shouldStart a = true) (hf : load a.id = none) :
    startAllAgents load st (a :: rest) = st := by
  unfold startAllAgents
  simp [hs, startAgentRun, hf]

/-- C9 witness: the amended theorem applied to the two-agent batch. -/
theorem startAllAgents_stops_at_first_failure_witness :
    startAllAgents Fix.loadB Fix.dlEmpty [Fix.baA, Fix.baB] = Fix.dlEmpty :=
  startAllAgents_stops_at_first_failure Fix.loadB Fix.dlEmpty Fix.baA [Fix.baB]
    (by decide) (by decide)

end Loop
